import Mathlib

/-!
Formal model of the relativistic Doppler visualization core (main.cpp).

The C++ source works with `float`; here every numeric quantity is modelled
as a real number, so the theorems are about the exact-arithmetic content of
the algorithms. Vectors (`glm::vec3`) become a three-field structure over ℝ,
colors become an RGB triple over ℝ, and the GLUT keyboard/idle callbacks
become a step function on an explicit application-state structure.
-/

namespace DopplerModel

noncomputable section

/-- 3D vector over the reals, modelling `glm::vec3`. -/
structure Vec3 where
  x : ℝ
  y : ℝ
  z : ℝ

/-- Componentwise difference of vectors, modelling `glm` vector subtraction. -/
def Vec3.sub (a b : Vec3) : Vec3 := ⟨a.x - b.x, a.y - b.y, a.z - b.z⟩

/-- Dot product, modelling `glm::dot`. -/
def Vec3.dot (a b : Vec3) : ℝ := a.x * b.x + a.y * b.y + a.z * b.z

/-- Euclidean length, modelling `glm::length`. -/
def Vec3.length (v : Vec3) : ℝ := Real.sqrt (Vec3.dot v v)

/-- Normalization (division of each component by the length), modelling
`glm::normalize`. -/
def Vec3.normalize (v : Vec3) : Vec3 :=
  ⟨v.x / Vec3.length v, v.y / Vec3.length v, v.z / Vec3.length v⟩

/-- Scalar multiple of a vector. -/
def Vec3.smul (c : ℝ) (v : Vec3) : Vec3 := ⟨c * v.x, c * v.y, c * v.z⟩

/-- `glm::clamp` on scalars. -/
def glmClamp (x lo hi : ℝ) : ℝ := min (max x lo) hi

-- Constants from main.cpp (lines 24-29).

def NUM_STARS : ℕ := 100000

def GALAXY_RADIUS : ℝ := 15

def MAX_VELOCITY : ℝ := 0.5

def SPEED_OF_LIGHT : ℝ := 1

def FLAT_ROTATION_VELOCITY : ℝ := 0.5

def OBSERVER_POSITION_Z : ℝ := 20

/-- An RGB color triple, modelling the `float rgb[3]` buffers. -/
structure RGB where
  r : ℝ
  g : ℝ
  b : ℝ

-- The six branches of wavelengthToRGB (main.cpp lines 65-94), named after
-- the comments on the corresponding if-branches.

/-- Branch of `wavelengthToRGB` for `wavelength <= 0.25` (violet to blue). -/
def violetToBlue (wavelength : ℝ) : RGB :=
  ⟨0.5 * (wavelength / 0.25), 0, 0.5 + 0.5 * (wavelength / 0.25)⟩

/-- Branch of `wavelengthToRGB` for `wavelength <= 0.4` (blue to cyan). -/
def blueToCyan (wavelength : ℝ) : RGB :=
  ⟨0, (wavelength - 0.25) / 0.15, 1⟩

/-- Branch of `wavelengthToRGB` for `wavelength <= 0.55` (cyan to green). -/
def cyanToGreen (wavelength : ℝ) : RGB :=
  ⟨0, 1, 1 - (wavelength - 0.4) / 0.15⟩

/-- Branch of `wavelengthToRGB` for `wavelength <= 0.6` (green to yellow). -/
def greenToYellow (wavelength : ℝ) : RGB :=
  ⟨(wavelength - 0.55) / 0.05, 1, 0⟩

/-- Branch of `wavelengthToRGB` for `wavelength <= 0.75` (yellow to red). -/
def yellowToRed (wavelength : ℝ) : RGB :=
  ⟨1, 1 - (wavelength - 0.6) / 0.15, 0⟩

/-- Final branch of `wavelengthToRGB` (red). -/
def redSegment (wavelength : ℝ) : RGB := ⟨1, 0, 0⟩

/-- `wavelengthToRGB` from main.cpp lines 61-95: piecewise-linear visible
spectrum approximation, selected by the chain of `<=` tests. -/
def wavelengthToRGB (wavelength : ℝ) : RGB :=
  if wavelength ≤ 0.25 then violetToBlue wavelength
  else if wavelength ≤ 0.4 then blueToCyan wavelength
  else if wavelength ≤ 0.55 then cyanToGreen wavelength
  else if wavelength ≤ 0.6 then greenToYellow wavelength
  else if wavelength ≤ 0.75 then yellowToRed wavelength
  else redSegment wavelength

-- calculateRelativisticDopplerShift (main.cpp lines 98-113), split into its
-- successive local computations.

/-- Line of sight used by `calculateRelativisticDopplerShift` (line 100):
`glm::normalize(glm::vec3(0,0,OBSERVER_POSITION_Z) - starVelocity)`.
Note that it is computed from the star's velocity vector, not its position. -/
def lineOfSight (starVelocity : Vec3) : Vec3 :=
  Vec3.normalize (Vec3.sub (Vec3.mk 0 0 OBSERVER_POSITION_Z) starVelocity)

/-- The raw β of `calculateRelativisticDopplerShift` (lines 101 and 105):
`dot(starVelocity - observerVelocity, lineOfSight) / SPEED_OF_LIGHT`. -/
def rawBeta (starVelocity observerVelocity : Vec3) : ℝ :=
  Vec3.dot (Vec3.sub starVelocity observerVelocity) (lineOfSight starVelocity) /
    SPEED_OF_LIGHT

/-- The two sequential guards of lines 108-109:
`if (beta >= 1) beta = 0.99; if (beta <= -1) beta = -0.99;`. -/
def clampBeta (beta : ℝ) : ℝ :=
  let b1 := if beta ≥ 1 then 0.99 else beta
  if b1 ≤ -1 then -0.99 else b1

/-- The final formula of line 111: `sqrt((1+beta)/(1-beta))`. -/
def dopplerFactorOfBeta (beta : ℝ) : ℝ := Real.sqrt ((1 + beta) / (1 - beta))

/-- `calculateRelativisticDopplerShift` from main.cpp lines 98-113. -/
def calculateRelativisticDopplerShift (starVelocity observerVelocity : Vec3) : ℝ :=
  dopplerFactorOfBeta (clampBeta (rawBeta starVelocity observerVelocity))

-- Helper lemmas about the clamp and the factor.

theorem clampBeta_mem (beta : ℝ) : -1 < clampBeta beta ∧ clampBeta beta < 1 := by
  simp only [clampBeta]
  by_cases h1 : beta ≥ 1
  · simp only [if_pos h1]
    norm_num
  · simp only [if_neg h1]
    by_cases h2 : beta ≤ -1
    · simp only [if_pos h2]
      norm_num
    · simp only [if_neg h2]
      push_neg at h1 h2
      exact ⟨by linarith, by linarith⟩

theorem dopplerFactorOfBeta_pos {beta : ℝ} (h1 : -1 < beta) (h2 : beta < 1) :
    0 < dopplerFactorOfBeta beta := by
  unfold dopplerFactorOfBeta
  exact Real.sqrt_pos.mpr (div_pos (by linarith) (by linarith))

/-- Claim C7: viewing the Doppler factor as the function
β ↦ sqrt((1+β)/(1−β)) on the post-clamp range (−1, 1): it is strictly
positive there, it equals exactly 1 at β = 0 (no shift), and it is
monotonically (indeed strictly) increasing in β. -/
theorem c7_doppler_factor_props :
    (∀ beta : ℝ, -1 < beta → beta < 1 → 0 < dopplerFactorOfBeta beta) ∧
    dopplerFactorOfBeta 0 = 1 ∧
    StrictMonoOn dopplerFactorOfBeta (Set.Ioo (-1 : ℝ) 1) := by
  refine ⟨fun beta h1 h2 => dopplerFactorOfBeta_pos h1 h2, ?_, ?_⟩
  · unfold dopplerFactorOfBeta
    norm_num
  · intro a ha b hb hab
    unfold dopplerFactorOfBeta
    apply Real.sqrt_lt_sqrt
    · exact le_of_lt (div_pos (by linarith [ha.1]) (by linarith [ha.2]))
    · rw [div_lt_div_iff (by linarith [ha.2]) (by linarith [hb.2])]
      nlinarith

/-- Witness for C7 at the concrete post-clamp value β = 1/2. -/
theorem c7_witness : 0 < dopplerFactorOfBeta 0.5 :=
  c7_doppler_factor_props.1 0.5 (by norm_num) (by norm_num)

/-- Counterexample for C8: at the boundary w = 0.25 the two adjacent segment
formulas of `wavelengthToRGB` do NOT agree — the violet-to-blue formula gives
(0.5, 0, 1) while the blue-to-cyan formula gives (0, 0, 1) — so the mapping
is not continuous at every listed boundary. -/
theorem c8_counterexample : violetToBlue 0.25 ≠ blueToCyan 0.25 := by
  unfold violetToBlue blueToCyan
  intro h
  have hr := congrArg RGB.r h
  norm_num at hr

/-- Claim C8 (amended): at the segment boundaries w ∈ {0.4, 0.55, 0.6, 0.75}
the two adjacent segment formulas of `wavelengthToRGB` agree (continuity
there), while at w = 0.25 the first formula yields (0.5, 0, 1) and the second
yields (0, 0, 1) — a discontinuity at that one boundary. -/
theorem c8_boundary_values :
    blueToCyan 0.4 = cyanToGreen 0.4 ∧
    cyanToGreen 0.55 = greenToYellow 0.55 ∧
    greenToYellow 0.6 = yellowToRed 0.6 ∧
    yellowToRed 0.75 = redSegment 0.75 ∧
    violetToBlue 0.25 = ⟨0.5, 0, 1⟩ ∧
    blueToCyan 0.25 = ⟨0, 0, 1⟩ := by
  unfold blueToCyan cyanToGreen greenToYellow yellowToRed violetToBlue redSegment
  norm_num

-- Case analysis of the two sequential guards in lines 108-109.

theorem clampBeta_of_ge (r : ℝ) (h : 1 ≤ r) : clampBeta r = 0.99 := by
  simp only [clampBeta]
  rw [if_pos h, if_neg (by norm_num)]

theorem clampBeta_of_le (r : ℝ) (h : r ≤ -1) : clampBeta r = -0.99 := by
  have hn : ¬(r ≥ 1) := by simp only [ge_iff_le, not_le]; linarith
  simp only [clampBeta]
  rw [if_neg hn, if_pos h]

theorem clampBeta_of_mem (r : ℝ) (h1 : -1 < r) (h2 : r < 1) : clampBeta r = r := by
  have hn1 : ¬(r ≥ 1) := by simp only [ge_iff_le, not_le]; linarith
  have hn2 : ¬(r ≤ -1) := by simp only [not_le]; linarith
  simp only [clampBeta]
  rw [if_neg hn1, if_neg hn2]

theorem lineOfSight_of_zero_velocity : lineOfSight (Vec3.mk 0 0 0) = Vec3.mk 0 0 1 := by
  have hdot :
      Vec3.dot (Vec3.sub (Vec3.mk 0 0 OBSERVER_POSITION_Z) (Vec3.mk 0 0 0))
        (Vec3.sub (Vec3.mk 0 0 OBSERVER_POSITION_Z) (Vec3.mk 0 0 0)) = 400 := by
    unfold Vec3.dot Vec3.sub OBSERVER_POSITION_Z
    norm_num
  have hlen :
      Vec3.length (Vec3.sub (Vec3.mk 0 0 OBSERVER_POSITION_Z) (Vec3.mk 0 0 0)) = 20 := by
    unfold Vec3.length
    rw [hdot, show (400 : ℝ) = 20 ^ 2 by norm_num,
      Real.sqrt_sq (by norm_num : (0 : ℝ) ≤ 20)]
  unfold lineOfSight Vec3.normalize
  rw [hlen]
  unfold Vec3.sub OBSERVER_POSITION_Z
  norm_num

/-- Counterexample for C1: with starVelocity = (0,0,0) and
observerVelocity = (0,0,−0.995) the raw β is 0.995, which lies outside the
open interval (−0.99, 0.99), yet the code's guards leave it unchanged — it is
replaced neither by 0.99 nor by −0.99, contradicting the claimed clamping. -/
theorem c1_counterexample :
    rawBeta (Vec3.mk 0 0 0) (Vec3.mk 0 0 (-0.995)) = 0.995 ∧
    ¬(-0.99 < (0.995 : ℝ) ∧ (0.995 : ℝ) < 0.99) ∧
    clampBeta 0.995 = 0.995 ∧
    clampBeta 0.995 ≠ 0.99 ∧ clampBeta 0.995 ≠ -0.99 := by
  have hclamp : clampBeta 0.995 = 0.995 :=
    clampBeta_of_mem _ (by norm_num) (by norm_num)
  refine ⟨?_, by norm_num, hclamp, by rw [hclamp]; norm_num, by rw [hclamp]; norm_num⟩
  unfold rawBeta
  rw [lineOfSight_of_zero_velocity]
  unfold Vec3.dot Vec3.sub SPEED_OF_LIGHT
  norm_num

/-- Claim C1 (amended): the Doppler calculator replaces a raw β ≥ 1 by 0.99
and a raw β ≤ −1 by −0.99, leaving any raw β already in (−1, 1) unchanged;
the resulting β always lies in the open interval (−1, 1), and the returned
value sqrt((1+β)/(1−β)) is a finite, strictly positive real for every pair of
input vectors. -/
theorem c1_clamped_doppler_positive :
    ∀ starVelocity observerVelocity : Vec3,
      (1 ≤ rawBeta starVelocity observerVelocity →
        clampBeta (rawBeta starVelocity observerVelocity) = 0.99) ∧
      (rawBeta starVelocity observerVelocity ≤ -1 →
        clampBeta (rawBeta starVelocity observerVelocity) = -0.99) ∧
      (-1 < rawBeta starVelocity observerVelocity →
        rawBeta starVelocity observerVelocity < 1 →
        clampBeta (rawBeta starVelocity observerVelocity) =
          rawBeta starVelocity observerVelocity) ∧
      -1 < clampBeta (rawBeta starVelocity observerVelocity) ∧
      clampBeta (rawBeta starVelocity observerVelocity) < 1 ∧
      0 < calculateRelativisticDopplerShift starVelocity observerVelocity :=
  fun sv ov =>
    ⟨clampBeta_of_ge _, clampBeta_of_le _, clampBeta_of_mem _,
      (clampBeta_mem _).1, (clampBeta_mem _).2,
      dopplerFactorOfBeta_pos (clampBeta_mem (rawBeta sv ov)).1
        (clampBeta_mem (rawBeta sv ov)).2⟩

/-- Witness for C1 at starVelocity = observerVelocity = (0,0,0), where the
raw β is 0 and is left unchanged by the guards. -/
theorem c1_witness :
    clampBeta (rawBeta (Vec3.mk 0 0 0) (Vec3.mk 0 0 0)) =
      rawBeta (Vec3.mk 0 0 0) (Vec3.mk 0 0 0) :=
  (c1_clamped_doppler_positive (Vec3.mk 0 0 0) (Vec3.mk 0 0 0)).2.2.1
    (by unfold rawBeta Vec3.dot Vec3.sub SPEED_OF_LIGHT; norm_num)
    (by unfold rawBeta Vec3.dot Vec3.sub SPEED_OF_LIGHT; norm_num)

-- Star data (main.cpp lines 40-48) and star generation (lines 116-172).

/-- The `Star` structure of main.cpp lines 40-45. -/
structure Star where
  position : Vec3
  velocity : Vec3
  color : RGB
  dopplerShiftedColor : RGB

/-- One random sample drawn in the generation loop (lines 121-123):
angle, radius and height of a star. -/
structure Sample where
  angle : ℝ
  radius : ℝ
  height : ℝ

/-- The shared position of line 126:
`(radius*cos(angle), height, radius*sin(angle))`. -/
def samplePosition (s : Sample) : Vec3 :=
  ⟨s.radius * Real.cos s.angle, s.height, s.radius * Real.sin s.angle⟩

/-- The Keplerian orbital speed of line 138:
`MAX_VELOCITY * sqrt(GALAXY_RADIUS / (radius + 0.1))`. -/
def keplerianSpeed (radius : ℝ) : ℝ :=
  MAX_VELOCITY * Real.sqrt (GALAXY_RADIUS / (radius + 0.1))

/-- The Keplerian velocity of line 141, with `tangentX = -sin(angle)` and
`tangentZ = cos(angle)` (lines 139-140). -/
def keplerianVelocity (s : Sample) : Vec3 :=
  ⟨keplerianSpeed s.radius * (-Real.sin s.angle), 0,
    keplerianSpeed s.radius * Real.cos s.angle⟩

/-- The flat-rotation velocity of line 159:
`(FLAT_ROTATION_VELOCITY*tangentX, 0, FLAT_ROTATION_VELOCITY*tangentZ)`. -/
def flatVelocity (s : Sample) : Vec3 :=
  ⟨FLAT_ROTATION_VELOCITY * (-Real.sin s.angle), 0,
    FLAT_ROTATION_VELOCITY * Real.cos s.angle⟩

/-- The Doppler-shifted color computation shared by lines 145-150, 163-168
and 179-183: shiftedWavelength = 0.5 * dopplerFactor, clamped to [0,1],
then mapped through `wavelengthToRGB`. -/
def dopplerColor (velocity observerVel : Vec3) : RGB :=
  wavelengthToRGB
    (glmClamp (0.5 * calculateRelativisticDopplerShift velocity observerVel) 0 1)

/-- The Keplerian star built in lines 134-152 for one sample. -/
def mkKeplerianStar (observerVelocity : ℝ) (s : Sample) : Star :=
  { position := samplePosition s
    velocity := keplerianVelocity s
    color := wavelengthToRGB 0.5
    dopplerShiftedColor :=
      dopplerColor (keplerianVelocity s) (Vec3.mk 0 0 observerVelocity) }

/-- The flat-rotation star built in lines 155-170 for one sample. -/
def mkFlatStar (observerVelocity : ℝ) (s : Sample) : Star :=
  { position := samplePosition s
    velocity := flatVelocity s
    color := wavelengthToRGB 0.5
    dopplerShiftedColor :=
      dopplerColor (flatVelocity s) (Vec3.mk 0 0 observerVelocity) }

/-- `initializeStars` (lines 116-172), parameterized by the list of random
samples drawn in the loop: builds the Keplerian and flat-rotation
populations. -/
def initializeStars (observerVelocity : ℝ) (samples : List Sample) :
    List Star × List Star :=
  (samples.map (mkKeplerianStar observerVelocity),
    samples.map (mkFlatStar observerVelocity))

/-- `updateDopplerShifts` (lines 175-193) restricted to one population:
recomputes each star's `dopplerShiftedColor` from its velocity and the
observer velocity vector `(0,0,observerVelocity)`, touching nothing else. -/
def updateDopplerShifts (observerVelocity : ℝ) (stars : List Star) : List Star :=
  stars.map fun star =>
    { star with
      dopplerShiftedColor :=
        dopplerColor star.velocity (Vec3.mk 0 0 observerVelocity) }

/-- The spec's phrasing of step 1 of the Doppler Calculator: the unit vector
from a point `p` toward a point `q`. -/
def unitVectorToward (p q : Vec3) : Vec3 := Vec3.normalize (Vec3.sub q p)

/-- Claim C2: the line of sight is the unit vector from the star's velocity
vector (standing in for its position) toward the fixed observer point
(0, 0, OBSERVER_POSITION_Z), the relative-velocity scalar is
β = dot(starVelocity − observerVelocity, lineOfSight) / SPEED_OF_LIGHT with
SPEED_OF_LIGHT = 1, and the star's position is never an input: two stars
with the same velocity but different positions get the same recomputed
Doppler-shifted color. -/
theorem c2_beta_from_velocity :
    ∀ starVelocity observerVelocity : Vec3,
      lineOfSight starVelocity =
        unitVectorToward starVelocity (Vec3.mk 0 0 OBSERVER_POSITION_Z) ∧
      rawBeta starVelocity observerVelocity =
        Vec3.dot (Vec3.sub starVelocity observerVelocity)
            (unitVectorToward starVelocity (Vec3.mk 0 0 OBSERVER_POSITION_Z)) /
          SPEED_OF_LIGHT ∧
      SPEED_OF_LIGHT = 1 ∧
      (∀ (position1 position2 : Vec3) (color1 color2 dsc1 dsc2 : RGB)
          (velocity obsVel : Vec3),
        List.map Star.dopplerShiftedColor
            (updateDopplerShifts obsVel.z [Star.mk position1 velocity color1 dsc1]) =
          List.map Star.dopplerShiftedColor
            (updateDopplerShifts obsVel.z [Star.mk position2 velocity color2 dsc2])) :=
  fun _ _ => ⟨rfl, rfl, rfl, fun _ _ _ _ _ _ _ _ => rfl⟩

/-- Claim C10: for the flat-rotation population the displayed color is
independent of the star's radius and height — two flat-rotation stars
generated with the same angle but arbitrary radii and heights have identical
velocities, identical Doppler factors, and identical Doppler-shifted
colors, for every observer velocity. -/
theorem c10_flat_color_independent :
    ∀ angle radius1 height1 radius2 height2 observerVelocity : ℝ,
      (mkFlatStar observerVelocity ⟨angle, radius1, height1⟩).velocity =
        (mkFlatStar observerVelocity ⟨angle, radius2, height2⟩).velocity ∧
      calculateRelativisticDopplerShift
          (mkFlatStar observerVelocity ⟨angle, radius1, height1⟩).velocity
          (Vec3.mk 0 0 observerVelocity) =
        calculateRelativisticDopplerShift
          (mkFlatStar observerVelocity ⟨angle, radius2, height2⟩).velocity
          (Vec3.mk 0 0 observerVelocity) ∧
      (mkFlatStar observerVelocity ⟨angle, radius1, height1⟩).dopplerShiftedColor =
        (mkFlatStar observerVelocity ⟨angle, radius2, height2⟩).dopplerShiftedColor :=
  fun _ _ _ _ _ _ => ⟨rfl, rfl, rfl⟩

-- Length of a tangential velocity vector.

theorem length_tangential (speed angle : ℝ) (hsp : 0 ≤ speed) :
    Vec3.length (Vec3.mk (speed * (-Real.sin angle)) 0 (speed * Real.cos angle)) =
      speed := by
  unfold Vec3.length Vec3.dot
  have h : speed * (-Real.sin angle) * (speed * (-Real.sin angle)) + 0 * 0 +
      speed * Real.cos angle * (speed * Real.cos angle) =
      speed ^ 2 * (Real.sin angle ^ 2 + Real.cos angle ^ 2) := by ring
  dsimp only
  rw [h, Real.sin_sq_add_cos_sq, mul_one, Real.sqrt_sq hsp]

theorem keplerianSpeed_nonneg (radius : ℝ) : 0 ≤ keplerianSpeed radius := by
  unfold keplerianSpeed MAX_VELOCITY
  positivity

/-- Claim C5: every generated Keplerian star has velocity
MAX_VELOCITY·sqrt(GALAXY_RADIUS/(radius+0.1)) along the tangential direction
(−sin angle, 0, cos angle) — in particular at radius = GALAXY_RADIUS the
speed is strictly below MAX_VELOCITY — while the flat-rotation star's speed
is exactly FLAT_ROTATION_VELOCITY along the same direction, and the two
stars of the same sample share position
(radius·cos angle, height, radius·sin angle). -/
theorem c5_generated_velocities :
    ∀ (observerVelocity : ℝ) (s : Sample),
      (mkKeplerianStar observerVelocity s).velocity =
        Vec3.smul (MAX_VELOCITY * Real.sqrt (GALAXY_RADIUS / (s.radius + 0.1)))
          (Vec3.mk (-Real.sin s.angle) 0 (Real.cos s.angle)) ∧
      Vec3.length (mkKeplerianStar observerVelocity s).velocity =
        MAX_VELOCITY * Real.sqrt (GALAXY_RADIUS / (s.radius + 0.1)) ∧
      MAX_VELOCITY * Real.sqrt (GALAXY_RADIUS / (GALAXY_RADIUS + 0.1)) <
        MAX_VELOCITY ∧
      (mkFlatStar observerVelocity s).velocity =
        Vec3.smul FLAT_ROTATION_VELOCITY
          (Vec3.mk (-Real.sin s.angle) 0 (Real.cos s.angle)) ∧
      Vec3.length (mkFlatStar observerVelocity s).velocity =
        FLAT_ROTATION_VELOCITY ∧
      (mkKeplerianStar observerVelocity s).position =
        (mkFlatStar observerVelocity s).position ∧
      (mkKeplerianStar observerVelocity s).position =
        Vec3.mk (s.radius * Real.cos s.angle) s.height
          (s.radius * Real.sin s.angle) := by
  intro ov s
  refine ⟨?_, ?_, ?_, ?_, ?_, rfl, rfl⟩
  · show keplerianVelocity s = _
    unfold keplerianVelocity keplerianSpeed Vec3.smul
    rw [mul_zero]
  · show Vec3.length (keplerianVelocity s) = _
    unfold keplerianVelocity
    rw [length_tangential _ _ (keplerianSpeed_nonneg s.radius)]
    rfl
  · have h2 := Real.sqrt_lt_sqrt
      (show (0 : ℝ) ≤ GALAXY_RADIUS / (GALAXY_RADIUS + 0.1) by
        unfold GALAXY_RADIUS; norm_num)
      (show GALAXY_RADIUS / (GALAXY_RADIUS + 0.1) < 1 by
        unfold GALAXY_RADIUS; norm_num)
    rw [Real.sqrt_one] at h2
    unfold MAX_VELOCITY
    linarith
  · show flatVelocity s = _
    unfold flatVelocity Vec3.smul
    rw [mul_zero]
  · show Vec3.length (flatVelocity s) = _
    unfold flatVelocity
    rw [length_tangential _ _
      (show (0 : ℝ) ≤ FLAT_ROTATION_VELOCITY by
        unfold FLAT_ROTATION_VELOCITY; norm_num)]

-- Branch-selection lemmas for wavelengthToRGB.

theorem wavelengthToRGB_seg1 (w : ℝ) (h : w ≤ 0.25) :
    wavelengthToRGB w = violetToBlue w := by
  unfold wavelengthToRGB
  rw [if_pos h]

theorem wavelengthToRGB_seg2 (w : ℝ) (ha : 0.25 < w) (hb : w ≤ 0.4) :
    wavelengthToRGB w = blueToCyan w := by
  unfold wavelengthToRGB
  rw [if_neg (not_le.mpr ha), if_pos hb]

theorem wavelengthToRGB_seg3 (w : ℝ) (ha : 0.4 < w) (hb : w ≤ 0.55) :
    wavelengthToRGB w = cyanToGreen w := by
  unfold wavelengthToRGB
  rw [if_neg (not_le.mpr (by linarith : (0.25 : ℝ) < w)),
    if_neg (not_le.mpr ha), if_pos hb]

theorem wavelengthToRGB_seg4 (w : ℝ) (ha : 0.55 < w) (hb : w ≤ 0.6) :
    wavelengthToRGB w = greenToYellow w := by
  unfold wavelengthToRGB
  rw [if_neg (not_le.mpr (by linarith : (0.25 : ℝ) < w)),
    if_neg (not_le.mpr (by linarith : (0.4 : ℝ) < w)),
    if_neg (not_le.mpr ha), if_pos hb]

theorem wavelengthToRGB_seg5 (w : ℝ) (ha : 0.6 < w) (hb : w ≤ 0.75) :
    wavelengthToRGB w = yellowToRed w := by
  unfold wavelengthToRGB
  rw [if_neg (not_le.mpr (by linarith : (0.25 : ℝ) < w)),
    if_neg (not_le.mpr (by linarith : (0.4 : ℝ) < w)),
    if_neg (not_le.mpr (by linarith : (0.55 : ℝ) < w)),
    if_neg (not_le.mpr ha), if_pos hb]

theorem wavelengthToRGB_seg6 (w : ℝ) (ha : 0.75 < w) :
    wavelengthToRGB w = redSegment w := by
  unfold wavelengthToRGB
  rw [if_neg (not_le.mpr (by linarith : (0.25 : ℝ) < w)),
    if_neg (not_le.mpr (by linarith : (0.4 : ℝ) < w)),
    if_neg (not_le.mpr (by linarith : (0.55 : ℝ) < w)),
    if_neg (not_le.mpr (by linarith : (0.6 : ℝ) < w)),
    if_neg (not_le.mpr ha)]

/-- Claim C3: for every w in [0,1], `wavelengthToRGB w` equals the
six-segment piecewise-linear table (segments split at 0.25, 0.4, 0.55, 0.6,
0.75, boundaries belonging to the lower segment), and each of the three
channels lies in [0,1]. -/
theorem c3_wavelength_table_bounds (w : ℝ) (h0 : 0 ≤ w) (h1 : w ≤ 1) :
    (w ≤ 0.25 → wavelengthToRGB w = violetToBlue w) ∧
    (0.25 < w → w ≤ 0.4 → wavelengthToRGB w = blueToCyan w) ∧
    (0.4 < w → w ≤ 0.55 → wavelengthToRGB w = cyanToGreen w) ∧
    (0.55 < w → w ≤ 0.6 → wavelengthToRGB w = greenToYellow w) ∧
    (0.6 < w → w ≤ 0.75 → wavelengthToRGB w = yellowToRed w) ∧
    (0.75 < w → wavelengthToRGB w = redSegment w) ∧
    0 ≤ (wavelengthToRGB w).r ∧ (wavelengthToRGB w).r ≤ 1 ∧
    0 ≤ (wavelengthToRGB w).g ∧ (wavelengthToRGB w).g ≤ 1 ∧
    0 ≤ (wavelengthToRGB w).b ∧ (wavelengthToRGB w).b ≤ 1 := by
  refine ⟨wavelengthToRGB_seg1 w, wavelengthToRGB_seg2 w, wavelengthToRGB_seg3 w,
    wavelengthToRGB_seg4 w, wavelengthToRGB_seg5 w, wavelengthToRGB_seg6 w, ?_⟩
  rcases le_or_lt w 0.25 with h | ha
  · rw [wavelengthToRGB_seg1 w h]
    unfold violetToBlue
    refine ⟨?_, ?_, ?_, ?_, ?_, ?_⟩ <;> dsimp only <;> ring_nf <;> linarith
  rcases le_or_lt w 0.4 with h | hb
  · rw [wavelengthToRGB_seg2 w ha h]
    unfold blueToCyan
    refine ⟨?_, ?_, ?_, ?_, ?_, ?_⟩ <;> dsimp only <;> ring_nf <;> linarith
  rcases le_or_lt w 0.55 with h | hc
  · rw [wavelengthToRGB_seg3 w hb h]
    unfold cyanToGreen
    refine ⟨?_, ?_, ?_, ?_, ?_, ?_⟩ <;> dsimp only <;> ring_nf <;> linarith
  rcases le_or_lt w 0.6 with h | hd
  · rw [wavelengthToRGB_seg4 w hc h]
    unfold greenToYellow
    refine ⟨?_, ?_, ?_, ?_, ?_, ?_⟩ <;> dsimp only <;> ring_nf <;> linarith
  rcases le_or_lt w 0.75 with h | he
  · rw [wavelengthToRGB_seg5 w hd h]
    unfold yellowToRed
    refine ⟨?_, ?_, ?_, ?_, ?_, ?_⟩ <;> dsimp only <;> ring_nf <;> linarith
  · rw [wavelengthToRGB_seg6 w he]
    unfold redSegment
    refine ⟨?_, ?_, ?_, ?_, ?_, ?_⟩ <;> dsimp only <;> ring_nf <;> linarith

/-- Witness for C3 at the mid-spectrum wavelength w = 0.5. -/
theorem c3_witness : 0 ≤ (wavelengthToRGB 0.5).r :=
  (c3_wavelength_table_bounds 0.5 (by norm_num) (by norm_num)).2.2.2.2.2.2.1

-- The interaction state machine: the process-wide globals (lines 34-37,
-- 47-48) plus the keyboard handler (lines 331-369) and idle callback
-- (lines 379-385).

/-- The process-wide mutable state: observer velocity, view angle, the two
visibility toggles, and the two star populations. -/
structure AppState where
  observerVelocity : ℝ
  viewAngle : ℝ
  showKeplerian : Bool
  showFlatRotation : Bool
  keplerianStars : List Star
  flatRotationStars : List Star

/-- The input events handled by `keyboard` (W/S/A/D/K/F/R cases) and the
`idle` callback tick. -/
inductive Input where
  | keyW
  | keyS
  | keyA
  | keyD
  | keyK
  | keyF
  | keyR
  | idleTick

/-- One synchronous transition of the interaction state machine, following
`keyboard` (lines 331-369) and `idle` (lines 379-385). The W/S cases step
the observer velocity, apply the one-sided clamp, and rerun
`updateDopplerShifts` on both populations with the new velocity. -/
def stepInput (i : Input) (s : AppState) : AppState :=
  match i with
  | Input.keyW =>
      let v1 := s.observerVelocity + 0.01
      let v2 := if v1 > 0.9 then 0.9 else v1
      { s with
        observerVelocity := v2
        keplerianStars := updateDopplerShifts v2 s.keplerianStars
        flatRotationStars := updateDopplerShifts v2 s.flatRotationStars }
  | Input.keyS =>
      let v1 := s.observerVelocity - 0.01
      let v2 := if v1 < -0.9 then -0.9 else v1
      { s with
        observerVelocity := v2
        keplerianStars := updateDopplerShifts v2 s.keplerianStars
        flatRotationStars := updateDopplerShifts v2 s.flatRotationStars }
  | Input.keyA => { s with viewAngle := s.viewAngle - 5 }
  | Input.keyD => { s with viewAngle := s.viewAngle + 5 }
  | Input.keyK => { s with showKeplerian := !s.showKeplerian }
  | Input.keyF => { s with showFlatRotation := !s.showFlatRotation }
  | Input.keyR =>
      { s with
        viewAngle := 0
        observerVelocity := 0
        showKeplerian := true
        showFlatRotation := true
        keplerianStars := updateDopplerShifts 0 s.keplerianStars
        flatRotationStars := updateDopplerShifts 0 s.flatRotationStars }
  | Input.idleTick =>
      let a1 := s.viewAngle + 0.1
      let a2 := if a1 > 360 then a1 - 360 else a1
      { s with viewAngle := a2 }

/-- The state right after `main` runs `initializeStars()` (line 400) with the
initial global values of lines 34-37. -/
def initState (samples : List Sample) : AppState :=
  { observerVelocity := 0
    viewAngle := 0
    showKeplerian := true
    showFlatRotation := true
    keplerianStars := (initializeStars 0 samples).1
    flatRotationStars := (initializeStars 0 samples).2 }

/-- A state reachable from the initial state by any sequence of inputs. -/
def Reachable (samples : List Sample) (s : AppState) : Prop :=
  Relation.ReflTransGen (fun a b => ∃ i : Input, b = stepInput i a)
    (initState samples) s

-- Refreshing the colors of a generated population regenerates it at the new
-- observer velocity; refreshing twice is the same as refreshing once.

theorem updateDopplerShifts_map_kep (v v0 : ℝ) (samples : List Sample) :
    updateDopplerShifts v (List.map (mkKeplerianStar v0) samples) =
      List.map (mkKeplerianStar v) samples := by
  unfold updateDopplerShifts
  rw [List.map_map]
  exact congrFun (congrArg List.map (funext fun smp => rfl)) samples

theorem updateDopplerShifts_map_flat (v v0 : ℝ) (samples : List Sample) :
    updateDopplerShifts v (List.map (mkFlatStar v0) samples) =
      List.map (mkFlatStar v) samples := by
  unfold updateDopplerShifts
  rw [List.map_map]
  exact congrFun (congrArg List.map (funext fun smp => rfl)) samples

theorem updateDopplerShifts_idem (v : ℝ) (stars : List Star) :
    updateDopplerShifts v (updateDopplerShifts v stars) =
      updateDopplerShifts v stars := by
  unfold updateDopplerShifts
  rw [List.map_map]
  exact congrFun (congrArg List.map (funext fun star => rfl)) stars

/-- In every reachable state, each population is exactly the generated
population re-colored at the current observer velocity. -/
theorem reachable_stars (samples : List Sample) (s : AppState)
    (h : Reachable samples s) :
    s.keplerianStars = List.map (mkKeplerianStar s.observerVelocity) samples ∧
    s.flatRotationStars = List.map (mkFlatStar s.observerVelocity) samples := by
  induction h with
  | refl => exact ⟨rfl, rfl⟩
  | tail _ hstep ih =>
    obtain ⟨i, rfl⟩ := hstep
    obtain ⟨ihk, ihf⟩ := ih
    cases i
    case keyW =>
      dsimp only [stepInput]
      rw [ihk, ihf]
      exact ⟨updateDopplerShifts_map_kep _ _ samples,
        updateDopplerShifts_map_flat _ _ samples⟩
    case keyS =>
      dsimp only [stepInput]
      rw [ihk, ihf]
      exact ⟨updateDopplerShifts_map_kep _ _ samples,
        updateDopplerShifts_map_flat _ _ samples⟩
    case keyA => exact ⟨ihk, ihf⟩
    case keyD => exact ⟨ihk, ihf⟩
    case keyK => exact ⟨ihk, ihf⟩
    case keyF => exact ⟨ihk, ihf⟩
    case keyR =>
      dsimp only [stepInput]
      rw [ihk, ihf]
      exact ⟨updateDopplerShifts_map_kep _ _ samples,
        updateDopplerShifts_map_flat _ _ samples⟩
    case idleTick => exact ⟨ihk, ihf⟩

/-- In every reachable state the observer velocity lies in [−0.9, 0.9]. -/
theorem reachable_velocity_range (samples : List Sample) (s : AppState)
    (h : Reachable samples s) :
    -0.9 ≤ s.observerVelocity ∧ s.observerVelocity ≤ 0.9 := by
  induction h with
  | refl =>
    constructor <;> norm_num [initState]
  | tail _ hstep ih =>
    obtain ⟨i, rfl⟩ := hstep
    obtain ⟨ih1, ih2⟩ := ih
    cases i
    case keyW =>
      dsimp only [stepInput]
      split_ifs with hv
      · norm_num
      · push_neg at hv
        constructor <;> linarith
    case keyS =>
      dsimp only [stepInput]
      split_ifs with hv
      · norm_num
      · push_neg at hv
        constructor <;> linarith
    case keyA => exact ⟨ih1, ih2⟩
    case keyD => exact ⟨ih1, ih2⟩
    case keyK => exact ⟨ih1, ih2⟩
    case keyF => exact ⟨ih1, ih2⟩
    case keyR =>
      dsimp only [stepInput]
      norm_num
    case idleTick => exact ⟨ih1, ih2⟩

theorem stepW_velocity (s : AppState) :
    (stepInput Input.keyW s).observerVelocity =
      min (s.observerVelocity + 0.01) 0.9 := by
  dsimp only [stepInput]
  split_ifs with h
  · exact (min_eq_right (le_of_lt h)).symm
  · push_neg at h
    exact (min_eq_left h).symm

theorem stepS_velocity (s : AppState) :
    (stepInput Input.keyS s).observerVelocity =
      max (s.observerVelocity - 0.01) (-0.9) := by
  dsimp only [stepInput]
  split_ifs with h
  · exact (max_eq_right (le_of_lt h)).symm
  · push_neg at h
    exact (max_eq_left h).symm

theorem iterW_velocity (samples : List Sample) (n : ℕ) :
    ((stepInput Input.keyW)^[n] (initState samples)).observerVelocity =
      min ((n : ℝ) * 0.01) 0.9 := by
  induction n with
  | zero =>
    show (initState samples).observerVelocity = _
    rw [show ((0 : ℕ) : ℝ) * 0.01 = 0 by norm_num,
      min_eq_left (by norm_num : (0 : ℝ) ≤ 0.9)]
    rfl
  | succ n ih =>
    rw [Function.iterate_succ_apply', stepW_velocity, ih,
      show (((n + 1 : ℕ) : ℝ)) * 0.01 = (n : ℝ) * 0.01 + 0.01 by push_cast; ring]
    rcases le_total ((n : ℝ) * 0.01) 0.9 with h | h
    · rw [min_eq_left h]
    · rw [min_eq_right h,
        min_eq_right (by norm_num : (0.9 : ℝ) ≤ 0.9 + 0.01),
        min_eq_right (by linarith : (0.9 : ℝ) ≤ (n : ℝ) * 0.01 + 0.01)]

/-- Claim C6: the velocity-increase (velocity-decrease) transition steps the
observer velocity by +0.01 (−0.01) and clamps it to [−0.9, 0.9]; the
observer velocity stays in [−0.9, 0.9] in every reachable state; and 95
consecutive velocity-increase transitions from the initial velocity 0 leave
it saturated at exactly 0.9. -/
theorem c6_velocity_clamp :
    (∀ s : AppState,
      (stepInput Input.keyW s).observerVelocity =
        min (s.observerVelocity + 0.01) 0.9 ∧
      (stepInput Input.keyS s).observerVelocity =
        max (s.observerVelocity - 0.01) (-0.9)) ∧
    (∀ (samples : List Sample) (s : AppState), Reachable samples s →
      -0.9 ≤ s.observerVelocity ∧ s.observerVelocity ≤ 0.9) ∧
    (∀ samples : List Sample,
      ((stepInput Input.keyW)^[95] (initState samples)).observerVelocity = 0.9) := by
  refine ⟨fun s => ⟨stepW_velocity s, stepS_velocity s⟩,
    reachable_velocity_range, ?_⟩
  intro samples
  rw [iterW_velocity samples 95,
    show ((95 : ℕ) : ℝ) * 0.01 = 0.95 by norm_num,
    min_eq_right (by norm_num : (0.9 : ℝ) ≤ 0.95)]

/-- Witness for C6 at the initial state, which is trivially reachable. -/
theorem c6_witness :
    -0.9 ≤ (initState []).observerVelocity ∧
      (initState []).observerVelocity ≤ 0.9 :=
  c6_velocity_clamp.2.1 [] (initState []) Relation.ReflTransGen.refl

/-- Claim C4: in every reachable state, star positions and velocities equal
the generated ones (never mutated by any transition), every star's displayed
color is exactly `dopplerColor` of its own velocity and the current observer
velocity vector (0, 0, observerVelocity) — i.e. purely derived — and running
the Shift Updater twice at an unchanged observer velocity produces the same
populations as running it once. -/
theorem c4_colors_derived :
    (∀ (samples : List Sample) (s : AppState), Reachable samples s →
      List.map Star.position s.keplerianStars =
        List.map Star.position (initState samples).keplerianStars ∧
      List.map Star.velocity s.keplerianStars =
        List.map Star.velocity (initState samples).keplerianStars ∧
      List.map Star.position s.flatRotationStars =
        List.map Star.position (initState samples).flatRotationStars ∧
      List.map Star.velocity s.flatRotationStars =
        List.map Star.velocity (initState samples).flatRotationStars ∧
      (∀ star ∈ s.keplerianStars,
        star.dopplerShiftedColor =
          dopplerColor star.velocity (Vec3.mk 0 0 s.observerVelocity)) ∧
      (∀ star ∈ s.flatRotationStars,
        star.dopplerShiftedColor =
          dopplerColor star.velocity (Vec3.mk 0 0 s.observerVelocity))) ∧
    (∀ (observerVelocity : ℝ) (stars : List Star),
      updateDopplerShifts observerVelocity
          (updateDopplerShifts observerVelocity stars) =
        updateDopplerShifts observerVelocity stars) := by
  constructor
  · intro samples s h
    obtain ⟨hk, hf⟩ := reachable_stars samples s h
    refine ⟨?_, ?_, ?_, ?_, ?_, ?_⟩
    · rw [hk]
      show _ = List.map Star.position (List.map (mkKeplerianStar 0) samples)
      rw [List.map_map, List.map_map]
      exact congrFun (congrArg List.map (funext fun smp => rfl)) samples
    · rw [hk]
      show _ = List.map Star.velocity (List.map (mkKeplerianStar 0) samples)
      rw [List.map_map, List.map_map]
      exact congrFun (congrArg List.map (funext fun smp => rfl)) samples
    · rw [hf]
      show _ = List.map Star.position (List.map (mkFlatStar 0) samples)
      rw [List.map_map, List.map_map]
      exact congrFun (congrArg List.map (funext fun smp => rfl)) samples
    · rw [hf]
      show _ = List.map Star.velocity (List.map (mkFlatStar 0) samples)
      rw [List.map_map, List.map_map]
      exact congrFun (congrArg List.map (funext fun smp => rfl)) samples
    · intro star hstar
      rw [hk] at hstar
      obtain ⟨smp, _, rfl⟩ := List.mem_map.mp hstar
      rfl
    · intro star hstar
      rw [hf] at hstar
      obtain ⟨smp, _, rfl⟩ := List.mem_map.mp hstar
      rfl
  · exact updateDopplerShifts_idem

/-- Witness for C4: one velocity-increase step from the initial state with a
single sample leaves the Keplerian positions unchanged. -/
theorem c4_witness :
    List.map Star.position
        (stepInput Input.keyW (initState [(⟨0, 1, 0⟩ : Sample)])).keplerianStars =
      List.map Star.position (initState [(⟨0, 1, 0⟩ : Sample)]).keplerianStars :=
  (c4_colors_derived.1 [(⟨0, 1, 0⟩ : Sample)] _
    (Relation.ReflTransGen.tail Relation.ReflTransGen.refl ⟨Input.keyW, rfl⟩)).1

/-- Counterexample for C9: the state reached by one rotation-left key press
followed by one idle tick is reachable, yet its viewAngle is −4.9 < 0 — an
idle tick from a reachable state does not always land in [0, 360). -/
theorem c9_counterexample :
    Reachable []
        (stepInput Input.idleTick (stepInput Input.keyA (initState []))) ∧
    (stepInput Input.idleTick (stepInput Input.keyA (initState []))).viewAngle <
      0 := by
  constructor
  · exact Relation.ReflTransGen.tail
      (Relation.ReflTransGen.tail Relation.ReflTransGen.refl ⟨Input.keyA, rfl⟩)
      ⟨Input.idleTick, rfl⟩
  · show (if (0 : ℝ) - 5 + 0.1 > 360 then (0 : ℝ) - 5 + 0.1 - 360
      else (0 : ℝ) - 5 + 0.1) < 0
    rw [if_neg (by norm_num)]
    norm_num

/-- Claim C9 (amended): each idle tick adds 0.1 to viewAngle and subtracts
360 exactly when the result exceeds 360, while the discrete rotation keys
step viewAngle by ±5.0 with no wrap. Whenever the pre-tick viewAngle lies in
[0, 360], the post-tick viewAngle lies in (0, 360]; states reached through
discrete rotation steps can put viewAngle outside that range, and a single
idle tick then need not restore [0, 360). -/
theorem c9_idle_tick_range :
    ∀ s : AppState,
      ((stepInput Input.keyA s).viewAngle = s.viewAngle - 5 ∧
        (stepInput Input.keyD s).viewAngle = s.viewAngle + 5) ∧
      (0 ≤ s.viewAngle → s.viewAngle ≤ 360 →
        0 < (stepInput Input.idleTick s).viewAngle ∧
          (stepInput Input.idleTick s).viewAngle ≤ 360) := by
  intro s
  refine ⟨⟨rfl, rfl⟩, ?_⟩
  intro h0 h1
  dsimp only [stepInput]
  split_ifs with h
  · constructor <;> linarith
  · push_neg at h
    constructor <;> linarith

/-- Witness for C9 at the initial state, whose viewAngle is 0. -/
theorem c9_witness :
    0 < (stepInput Input.idleTick (initState [])).viewAngle ∧
      (stepInput Input.idleTick (initState [])).viewAngle ≤ 360 :=
  (c9_idle_tick_range (initState [])).2 (by norm_num [initState])
    (by norm_num [initState])

end

end DopplerModel
